import Mathlib

/-!
Verification development for the Alteris security and session control plane
(backend/common): token lifecycle manager (jwt_manager.py), brute-force guard
(brute_force.py), in-memory rate limiter (security.py) and audit trail
(audit.py). Each Python component is shallowly embedded as pure Lean
functions over explicit state records; Python dicts become association
lists with insert-replacing-the-key semantics, wall-clock time becomes an
explicit integer parameter, and the per-component asyncio locks are
elided (each operation is modelled as the single atomic critical section
the source serializes).
-/

namespace Alteris

/-! ## Association-list model of Python dicts -/

/-- Lookup of a key in an association list (first binding wins, as in a
Python dict where keys are unique). -/
def lookupA {α β : Type} [DecidableEq α] : List (α × β) → α → Option β
  | [], _ => none
  | (k0, v0) :: rest, k => if k0 = k then some v0 else lookupA rest k

/-- Insertion models Python dict assignment `d[k] = v`: the existing binding
for the key is replaced in place, otherwise the binding is appended. -/
def insertA {α β : Type} [DecidableEq α] : List (α × β) → α → β → List (α × β)
  | [], k, v => [(k, v)]
  | (k0, v0) :: rest, k, v =>
    if k0 = k then (k, v) :: rest else (k0, v0) :: insertA rest k v

/-- Deletion models Python `del d[k]` / `d.pop(k)`: every binding of the key
is removed. -/
def eraseA {α β : Type} [DecidableEq α] (l : List (α × β)) (k : α) : List (α × β) :=
  l.filter (fun p => p.1 ≠ k)

theorem lookupA_insertA_self {α β : Type} [DecidableEq α] (l : List (α × β)) (k : α) (v : β) :
    lookupA (insertA l k v) k = some v := by
  induction l with
  | nil => simp [insertA, lookupA]
  | cons hd tl ih =>
    by_cases h : hd.1 = k
    · simp [insertA, h, lookupA]
    · simp [insertA, h, lookupA, ih]

theorem lookupA_insertA_ne {α β : Type} [DecidableEq α] (l : List (α × β)) (k k' : α) (v : β)
    (h : k' ≠ k) : lookupA (insertA l k v) k' = lookupA l k' := by
  have hks : k ≠ k' := Ne.symm h
  induction l with
  | nil => simp [insertA, lookupA, hks]
  | cons hd tl ih =>
    by_cases hhd : hd.1 = k
    · subst hhd
      simp [insertA, lookupA, hks]
    · by_cases hhd' : hd.1 = k'
      · simp [insertA, lookupA, hhd, hhd', h]
      · simp [insertA, lookupA, hhd, hhd', ih]

theorem lookupA_eraseA_self {α β : Type} [DecidableEq α] (l : List (α × β)) (k : α) :
    lookupA (eraseA l k) k = none := by
  induction l with
  | nil => simp [eraseA, lookupA]
  | cons hd tl ih =>
    by_cases h : hd.1 = k
    · simpa [eraseA, h, lookupA] using ih
    · simpa [eraseA, h, lookupA] using ih

theorem lookupA_eraseA_ne {α β : Type} [DecidableEq α] (l : List (α × β)) (k k' : α)
    (h : k' ≠ k) : lookupA (eraseA l k) k' = lookupA l k' := by
  induction l with
  | nil => simp [eraseA, lookupA]
  | cons hd tl ih =>
    have hks : ¬k = k' := fun hh => h hh.symm
    by_cases hhd : hd.1 = k
    · simpa [eraseA, lookupA, hhd, hks] using ih
    · have hstep : eraseA (hd :: tl) k = hd :: eraseA tl k := by
        simp [eraseA, hhd]
      by_cases hhd' : hd.1 = k'
      · rw [hstep]
        simp [lookupA, hhd']
      · rw [hstep]
        simpa [lookupA, hhd'] using ih

/-! ## Token lifecycle manager (backend/common/jwt_manager.py)

A JWT is modelled as its decoded payload plus a `sigOk` flag standing for
"this string parses and its HMAC signature verifies". `jose.jwt.decode`
verifies signature and expiry and raises `JWTError` otherwise; the model
returns `none` in that case. Token content hashes (`_hash_token`, sha256 of
the encoded string) are modelled by using the token itself as the key of the
active-refresh dict: sha256 is collision-free on the inputs at play, so the
hash is an injective function of the token and keying by the token is
faithful. Randomly generated jti strings and wall-clock readings are passed
in explicitly. -/

/-- Payload of a JWT as produced by create_access_token / create_refresh_token
in jwt_manager.py, together with the signature-validity flag. -/
structure Token where
  sub : String
  email : String
  role : String
  type : String
  jti : String
  iat : Int
  exp : Int
  sigOk : Bool
deriving DecidableEq, Repr, Inhabited

/-- Result of verify_token, mirroring the TokenData dataclass. -/
structure TokenData where
  userId : String
  email : String
  role : String
  tokenType : String
  jti : String
  exp : Int
  iat : Int
deriving DecidableEq, Repr

/-- Default ACCESS_TOKEN_EXPIRE_MINUTES (env JWT_EXPIRATION_MINUTES, default 60). -/
def ACCESS_TOKEN_EXPIRE_MINUTES : Int := 60

/-- Default REFRESH_TOKEN_EXPIRE_DAYS (env JWT_REFRESH_EXPIRATION_DAYS, default 7). -/
def REFRESH_TOKEN_EXPIRE_DAYS : Int := 7

/-- Mutable state of a TokenManager instance: revoked jtis with their
keep-until stamp, per-user session lists of refresh jtis, the active refresh
token set (content hash, modelled by the token itself, mapped to user id),
and the configured session cap. -/
structure TMState where
  revokedTokens : List (String × Int)
  userSessions : List (String × List String)
  activeRefreshTokens : List (Token × String)
  maxSessionsPerUser : Nat
deriving DecidableEq, Repr, Inhabited

/-- TokenManager.__init__ with the default MAX_SESSIONS_PER_USER = 5. -/
def TMState.init : TMState :=
  { revokedTokens := [], userSessions := [], activeRefreshTokens := [],
    maxSessionsPerUser := 5 }

/-- Model of jose.jwt.decode: succeeds iff the signature verifies and the
exp claim has not passed, returning the payload; raising JWTError is `none`. -/
def jwtDecode (t : Token) (now : Int) : Option Token :=
  if t.sigOk = true ∧ ¬t.exp < now then some t else none

/-- TokenManager.create_access_token (the returned jti is the one passed in
for the generated `secrets.token_urlsafe(32)` value). -/
def createAccessToken (userId email role : String) (now : Int) (jti : String) : Token :=
  { sub := userId, email := email, role := role, type := "access", jti := jti,
    iat := now, exp := now + ACCESS_TOKEN_EXPIRE_MINUTES * 60, sigOk := true }

/-- TokenManager.create_refresh_token. -/
def createRefreshToken (userId email role : String) (now : Int) (jti : String) : Token :=
  { sub := userId, email := email, role := role, type := "refresh", jti := jti,
    iat := now, exp := now + REFRESH_TOKEN_EXPIRE_DAYS * 86400, sigOk := true }

/-- TokenManager._revoke_jti: store the jti until exp + 3600, or now + 86400
when no expiry is supplied (Python truthiness: exp equal to 0 also takes the
default branch). -/
def revokeJti (st : TMState) (jti : String) (exp : Option Int) (now : Int) : TMState :=
  match exp with
  | some e =>
    if e = 0 then
      { st with revokedTokens := insertA st.revokedTokens jti (now + 86400) }
    else
      { st with revokedTokens := insertA st.revokedTokens jti (e + 3600) }
  | none => { st with revokedTokens := insertA st.revokedTokens jti (now + 86400) }

/-- Outcome of awaiting a TokenManager coroutine from a task that may
already hold the manager's single non-reentrant asyncio.Lock: either the
coroutine returns a value, or it blocks forever re-acquiring that lock and
never returns (a deadlock, observable as the call never completing). -/
inductive AsyncResult (α : Type)
  | returns (a : α)
  | deadlocks
deriving DecidableEq, Repr

/-- Value of a returned AsyncResult, with a default for the deadlock case
(only used where a separate theorem pins the result to `returns`). -/
def AsyncResult.getD {α : Type} : AsyncResult α → α → α
  | .returns a, _ => a
  | .deadlocks, d => d

/-- TokenManager._manage_sessions, as invoked by create_token_pair while
the manager's asyncio.Lock is already held: the new refresh jti is appended
to the user's session list; if the list then exceeds max_sessions_per_user,
the while-loop pops the oldest jti and awaits _revoke_jti, which opens
`async with self._lock` on the same non-reentrant lock create_token_pair is
holding — the task blocks forever. Eviction therefore never completes, no
revocation entry is ever written, and the call deadlocks. -/
def manageSessions (st : TMState) (userId newJti : String) : AsyncResult TMState :=
  let sessions := (lookupA st.userSessions userId).getD [] ++ [newJti]
  if st.maxSessionsPerUser < sessions.length then .deadlocks
  else .returns { st with userSessions := insertA st.userSessions userId sessions }

/-- Pair returned by create_token_pair (the TokenPair dataclass, with the
constant type / expires-in fields omitted). -/
structure TokenPairT where
  accessToken : Token
  refreshToken : Token
deriving DecidableEq, Repr, Inhabited

/-- TokenManager.create_token_pair: mint both tokens, register the refresh
token's hash in the active set, then manage the user's sessions — which
deadlocks whenever the session cap would be exceeded (see manageSessions).
The additional_claims parameter only adds extra payload fields and is not
part of the modelled payload. -/
def createTokenPair (st : TMState) (userId email role : String) (now : Int)
    (accessJti refreshJti : String) : AsyncResult (TokenPairT × TMState) :=
  let accessToken := createAccessToken userId email role now accessJti
  let refreshToken := createRefreshToken userId email role now refreshJti
  let st1 := { st with
    activeRefreshTokens := insertA st.activeRefreshTokens refreshToken userId }
  match manageSessions st1 userId refreshJti with
  | .returns st2 => .returns (⟨accessToken, refreshToken⟩, st2)
  | .deadlocks => .deadlocks

/-- TokenManager._is_revoked, including its lazy deletion of an entry whose
keep-until stamp has passed; returns the answer and the updated dict. -/
def isRevokedCheck (revoked : List (String × Int)) (jti : String) (now : Int) :
    Bool × List (String × Int) :=
  match lookupA revoked jti with
  | some u => if u < now then (false, eraseA revoked jti) else (true, revoked)
  | none => (false, revoked)

/-- TokenManager.verify_token: decode (signature + expiry), check the token
type, then the revocation set (skipped for a falsy jti, as in the source's
`if jti and self._is_revoked(jti)`). -/
def verifyToken (st : TMState) (t : Token) (expectedType : String) (now : Int) :
    Option TokenData × TMState :=
  match jwtDecode t now with
  | none => (none, st)
  | some p =>
    if p.type ≠ expectedType then (none, st)
    else if p.jti ≠ "" then
      let r := isRevokedCheck st.revokedTokens p.jti now
      let st1 := { st with revokedTokens := r.2 }
      if r.1 then (none, st1)
      else (some ⟨p.sub, p.email, p.role, p.type, p.jti, p.exp, p.iat⟩, st1)
    else (some ⟨p.sub, p.email, p.role, p.type, p.jti, p.exp, p.iat⟩, st)

/-- TokenManager.revoke_token: decode; on JWTError return False with the
state untouched; otherwise revoke the jti (if truthy) and, for a refresh
token, drop its hash from the active set. -/
def revokeToken (st : TMState) (t : Token) (now : Int) : Bool × TMState :=
  match jwtDecode t now with
  | none => (false, st)
  | some p =>
    let st1 := if p.jti ≠ "" then revokeJti st p.jti (some p.exp) now else st
    let st2 :=
      if p.type = "refresh" then
        { st1 with activeRefreshTokens := eraseA st1.activeRefreshTokens t }
      else st1
    (true, st2)

/-- TokenManager.refresh_access_token: verify as a refresh token, require
its hash to still be in the active set, mint a fresh pair (rotation), then
revoke the old refresh token. The lock is free at each acquisition here
except inside create_token_pair's session management, so the rotation
deadlocks exactly when that internal create_token_pair call does. -/
def refreshAccessToken (st : TMState) (refreshTok : Token) (now : Int)
    (newAccessJti newRefreshJti : String) :
    AsyncResult (Option (Token × Token) × TMState) :=
  match verifyToken st refreshTok "refresh" now with
  | (none, st1) => .returns (none, st1)
  | (some td, st1) =>
    match lookupA st1.activeRefreshTokens refreshTok with
    | none => .returns (none, st1)
    | some _ =>
      match createTokenPair st1 td.userId td.email td.role now newAccessJti newRefreshJti with
      | .deadlocks => .deadlocks
      | .returns r =>
        let r2 := revokeToken r.2 refreshTok now
        .returns (some (r.1.accessToken, r.1.refreshToken), r2.2)

/-! ### Evaluating session-cap eviction and rotation on the code

The repository's own docstrings promise that create_token_pair "crée une
paire access + refresh token" and that refresh_access_token "retourne
(new_access_token, new_refresh_token) ou None"; the theorems below evaluate
both on concrete inputs where eviction triggers, and on the eviction-free
path. -/

/-- Issue one token pair per list entry for subject u1 (jtis and call time
per entry), stopping at the first deadlock. -/
def tmIssueMany (st : TMState) : List (String × String × Int) → AsyncResult TMState
  | [] => .returns st
  | (aj, rj, t) :: rest =>
    match createTokenPair st "u1" "u1@alteris.io" "admin" t aj rj with
    | .returns p => tmIssueMany p.2 rest
    | .deadlocks => .deadlocks

/-- Five pair issuances for u1 — exactly the default session cap. -/
def tmCalls5 : List (String × String × Int) :=
  [("a1", "r1", 0), ("a2", "r2", 1), ("a3", "r3", 2), ("a4", "r4", 3), ("a5", "r5", 4)]

/-- State of a fresh TokenManager after the five issuances of tmCalls5:
subject u1 holds exactly max_sessions_per_user sessions. -/
def tmAtCap5 : TMState := (tmIssueMany TMState.init tmCalls5).getD TMState.init

/-- Single pair minted from a fresh manager (the eviction-free path). -/
def tmFreshMint : TokenPairT × TMState :=
  (createTokenPair TMState.init "u1" "u1@alteris.io" "admin" 0 "a1" "r1").getD default

/-- First rotation of that pair's refresh token. -/
def tmFreshRot1 : Option (Token × Token) × TMState :=
  (refreshAccessToken tmFreshMint.2 tmFreshMint.1.refreshToken 10 "a2" "r2").getD default

/-- Replay of the already-rotated refresh token. -/
def tmFreshRot2 : Option (Token × Token) × TMState :=
  (refreshAccessToken tmFreshRot1.2 tmFreshMint.1.refreshToken 20 "a3" "r3").getD default

/-- C1: evaluating the claim on the code. Off the eviction path the claimed
contract does hold — from a fresh manager the first rotation returns a new
pair and a replay of the same token is rejected with None — but the claim
quantifies over every minted refresh token: with subject u1 at the default
session cap of five, the newest minted refresh token still decodes (valid
signature, unexpired), yet its first refresh_access_token call deadlocks
instead of returning a pair, because the rotation's internal
create_token_pair awaits _manage_sessions → _revoke_jti, re-acquiring the
asyncio.Lock it already holds. -/
theorem c1_rotation_deadlocks_at_session_cap :
    (tmIssueMany TMState.init tmCalls5 = .returns tmAtCap5)
  ∧ ((lookupA tmAtCap5.userSessions "u1").getD [] = ["r1", "r2", "r3", "r4", "r5"])
  ∧ (jwtDecode (createRefreshToken "u1" "u1@alteris.io" "admin" 4 "r5") 10 =
      some (createRefreshToken "u1" "u1@alteris.io" "admin" 4 "r5"))
  ∧ (refreshAccessToken tmAtCap5 (createRefreshToken "u1" "u1@alteris.io" "admin" 4 "r5")
      10 "b1" "s1" = .deadlocks)
  ∧ (createTokenPair TMState.init "u1" "u1@alteris.io" "admin" 0 "a1" "r1" =
      .returns tmFreshMint)
  ∧ (refreshAccessToken tmFreshMint.2 tmFreshMint.1.refreshToken 10 "a2" "r2" =
      .returns tmFreshRot1)
  ∧ (tmFreshRot1.1.isSome = true)
  ∧ (refreshAccessToken tmFreshRot1.2 tmFreshMint.1.refreshToken 20 "a3" "r3" =
      .returns tmFreshRot2)
  ∧ (tmFreshRot2.1 = none) := by decide

/-- C2: evaluating the claim's max+1 scenario on the code. The first five
create_token_pair calls return and leave subject u1 with exactly the five
session jtis, but the sixth call — which the claim says evicts and revokes
the oldest pair's refresh jti — deadlocks instead: _manage_sessions awaits
_revoke_jti, which re-acquires the asyncio.Lock create_token_pair already
holds. The oldest jti is therefore never revoked and the first pair's
refresh token still verifies. -/
theorem c2_sixth_pair_deadlocks_unrevoked :
    (tmIssueMany TMState.init tmCalls5 = .returns tmAtCap5)
  ∧ ((lookupA tmAtCap5.userSessions "u1").getD [] = ["r1", "r2", "r3", "r4", "r5"])
  ∧ (createTokenPair tmAtCap5 "u1" "u1@alteris.io" "admin" 5 "a6" "r6" = .deadlocks)
  ∧ (lookupA tmAtCap5.revokedTokens "r1" = none)
  ∧ ((verifyToken tmAtCap5 (createRefreshToken "u1" "u1@alteris.io" "admin" 0 "r1")
      "refresh" 6).1.isSome = true) := by decide


/-- C10: revoke_token on a token that fails JWT decoding (in particular one
whose expiry has passed, since decoding verifies expiry) returns False and
leaves the whole manager state — revocation set, active-refresh set and
session lists — unchanged. -/
theorem c10_revoke_requires_decodable (st : TMState) (t : Token) (now : Int) :
    (jwtDecode t now = none → revokeToken st t now = (false, st))
  ∧ (t.exp < now → revokeToken st t now = (false, st)) := by
  constructor
  · intro h
    simp [revokeToken, h]
  · intro h
    have hd : jwtDecode t now = none := by
      simp [jwtDecode, h]
    simp [revokeToken, hd]

/-- Concrete expired token used to witness C10. -/
def c10ExpiredTok : Token :=
  { sub := "u1", email := "u1@alteris.io", role := "admin", type := "refresh",
    jti := "j9", iat := 0, exp := 10, sigOk := true }

theorem c10_revoke_requires_decodable_witness :
    revokeToken TMState.init c10ExpiredTok 20 = (false, TMState.init) :=
  (c10_revoke_requires_decodable TMState.init c10ExpiredTok 20).2 (by decide)

/-! ## Brute-force guard (backend/common/brute_force.py)

Attempts, lockouts and histories live in per-key dicts; the audit calls the
guard makes (audit_service.log_security_event / log_user_action) are
returned as an explicit list of emitted calls. Configuration values carry
the environment defaults MAX_LOGIN_ATTEMPTS=5, LOCKOUT_DURATION=1800,
ATTEMPT_WINDOW=900, PROGRESSIVE_LOCKOUT=true,
DISTRIBUTED_ATTACK_THRESHOLD=10. -/

/-- LoginAttempt dataclass. -/
structure LoginAttempt where
  timestamp : Int
  email : String
  ipAddress : String
  success : Bool
  userAgent : Option String
deriving DecidableEq, Repr

/-- LockoutReason enum. -/
inductive LockoutReason
  | tooManyAttempts
  | suspiciousActivity
  | adminLock
  | distributedAttack
deriving DecidableEq, Repr

/-- String value of a LockoutReason (the str-enum payload). -/
def LockoutReason.value : LockoutReason → String
  | .tooManyAttempts => "too_many_login_attempts"
  | .suspiciousActivity => "suspicious_activity"
  | .adminLock => "admin_locked"
  | .distributedAttack => "distributed_attack_detected"

/-- AccountLockout dataclass. -/
structure AccountLockout where
  email : String
  lockedAt : Int
  unlockAt : Int
  reason : LockoutReason
  attemptCount : Nat
  lockoutCount : Nat
deriving DecidableEq, Repr

/-- IPLockout dataclass. -/
structure IPLockout where
  ipAddress : String
  lockedAt : Int
  unlockAt : Int
  reason : LockoutReason
  targetedAccounts : List String
deriving DecidableEq, Repr

/-- Module-level configuration of brute_force.py. -/
structure BFConfig where
  maxLoginAttempts : Nat
  lockoutDuration : Int
  attemptWindow : Int
  progressiveLockout : Bool
  distributedAttackThreshold : Nat
deriving DecidableEq, Repr

/-- Environment defaults of the brute-force configuration. -/
def defaultBFConfig : BFConfig :=
  { maxLoginAttempts := 5, lockoutDuration := 1800, attemptWindow := 900,
    progressiveLockout := true, distributedAttackThreshold := 10 }

/-- Mutable state of a BruteForceProtection instance. -/
structure BFState where
  attemptsByEmail : List (String × List LoginAttempt)
  attemptsByIp : List (String × List LoginAttempt)
  lockedAccounts : List (String × AccountLockout)
  lockedIps : List (String × IPLockout)
  lockoutHistory : List (String × Nat)
deriving DecidableEq, Repr

/-- BruteForceProtection.__init__. -/
def BFState.init : BFState :=
  { attemptsByEmail := [], attemptsByIp := [], lockedAccounts := [],
    lockedIps := [], lockoutHistory := [] }

/-- Values carried in the details dict of an audit call made by the guard. -/
inductive AuditDetail
  | strVal (v : String)
  | natVal (v : Nat)
  | listVal (v : List String)
deriving DecidableEq, Repr

/-- An invocation of the audit service recorded by the guard: either
audit_service.log_security_event or audit_service.log_user_action, with the
arguments the source passes. -/
inductive AuditCall
  | securityEvent (eventType : String) (ipAddress : String)
      (details : List (String × AuditDetail))
  | userAction (eventType : String) (userId : String) (targetUserId : String)
      (action : String) (details : List (String × AuditDetail))
deriving DecidableEq, Repr

/-- Appending the new LoginAttempt to both per-email and per-IP dicts
(record_attempt lines 138-140). -/
def appendAttempt (st : BFState) (a : LoginAttempt) : BFState :=
  { st with
    attemptsByEmail := insertA st.attemptsByEmail a.email
      (((lookupA st.attemptsByEmail a.email).getD []) ++ [a]),
    attemptsByIp := insertA st.attemptsByIp a.ipAddress
      (((lookupA st.attemptsByIp a.ipAddress).getD []) ++ [a]) }

/-- BruteForceProtection._cleanup_old_attempts. -/
def cleanupOldAttempts (cfg : BFConfig) (st : BFState) (email ip : String)
    (now : Int) : BFState :=
  let cutoff := now - cfg.attemptWindow
  { st with
    attemptsByEmail := insertA st.attemptsByEmail email
      (((lookupA st.attemptsByEmail email).getD []).filter
        (fun a => decide (cutoff < a.timestamp))),
    attemptsByIp := insertA st.attemptsByIp ip
      (((lookupA st.attemptsByIp ip).getD []).filter
        (fun a => decide (cutoff < a.timestamp))) }

/-- BruteForceProtection._get_recent_attempts: failed attempts for the email
inside the window. -/
def getRecentAttempts (cfg : BFConfig) (st : BFState) (email : String)
    (now : Int) : List LoginAttempt :=
  let cutoff := now - cfg.attemptWindow
  ((lookupA st.attemptsByEmail email).getD []).filter
    (fun a => decide (cutoff < a.timestamp) && !a.success)

/-- BruteForceProtection._should_lock_account. -/
def shouldLockAccount (cfg : BFConfig) (st : BFState) (email : String)
    (now : Int) : Bool × Option LockoutReason :=
  if cfg.maxLoginAttempts ≤ (getRecentAttempts cfg st email now).length then
    (true, some .tooManyAttempts)
  else (false, none)

/-- BruteForceProtection._should_lock_ip: distinct emails targeted by failed
attempts from the IP within the window (`list(set(...))` modelled by
eraseDups; only the count and membership of the result matter). -/
def shouldLockIp (cfg : BFConfig) (st : BFState) (ip : String) (now : Int) :
    Bool × List String :=
  let cutoff := now - cfg.attemptWindow
  let recent := ((lookupA st.attemptsByIp ip).getD []).filter
    (fun a => decide (cutoff < a.timestamp) && !a.success)
  let targeted := (recent.map (fun a => a.email)).eraseDups
  if cfg.distributedAttackThreshold ≤ targeted.length then (true, targeted)
  else (false, [])

/-- BruteForceProtection._lock_account: bump the consecutive-lockout
counter, compute the (possibly progressive) duration, store the lockout. -/
def lockAccount (cfg : BFConfig) (st : BFState) (email : String)
    (reason : LockoutReason) (now : Int) : BFState :=
  let lockoutCount := (lookupA st.lockoutHistory email).getD 0 + 1
  let duration : Int :=
    if cfg.progressiveLockout then
      min (cfg.lockoutDuration * 2 ^ (lockoutCount - 1)) 86400
    else cfg.lockoutDuration
  { st with
    lockoutHistory := insertA st.lockoutHistory email lockoutCount,
    lockedAccounts := insertA st.lockedAccounts email
      { email := email, lockedAt := now, unlockAt := now + duration,
        reason := reason,
        attemptCount := (getRecentAttempts cfg st email now).length,
        lockoutCount := lockoutCount } }

/-- BruteForceProtection._lock_ip. -/
def lockIp (cfg : BFConfig) (st : BFState) (ip : String)
    (targeted : List String) (now : Int) : BFState :=
  { st with
    lockedIps := insertA st.lockedIps ip
      { ipAddress := ip, lockedAt := now, unlockAt := now + cfg.lockoutDuration,
        reason := .distributedAttack, targetedAccounts := targeted } }

/-- Result of record_attempt: the (is_allowed, error_message) pair, the
post-call state, and the audit calls emitted during the call. -/
structure RecordResult where
  allowed : Bool
  message : Option String
  state : BFState
  audits : List AuditCall
deriving DecidableEq, Repr

/-- Steps 4-7 of record_attempt (after lockout gating): append, prune, then
the account-lock check followed by the distributed-attack check, each of
which locks, emits its audit event and rejects. -/
def recordAttemptCore (cfg : BFConfig) (st : BFState) (email ip : String)
    (success : Bool) (userAgent : Option String) (now : Int) : RecordResult :=
  let st1 := appendAttempt st
    { timestamp := now, email := email, ipAddress := ip, success := success,
      userAgent := userAgent }
  let st2 := cleanupOldAttempts cfg st1 email ip now
  if success = false then
    let la := shouldLockAccount cfg st2 email now
    if la.1 then
      let st3 := lockAccount cfg st2 email (la.2.getD .tooManyAttempts) now
      { allowed := false,
        message := some "Compte verrouillé suite à trop de tentatives échouées.",
        state := st3,
        audits := [.securityEvent "security.brute_force" ip
          [("email", .strVal email),
           ("attempt_count", .natVal (getRecentAttempts cfg st3 email now).length),
           ("reason", .strVal (la.2.getD .tooManyAttempts).value)]] }
    else
      let li := shouldLockIp cfg st2 ip now
      if li.1 then
        let st3 := lockIp cfg st2 ip li.2 now
        { allowed := false,
          message := some "Activité suspecte détectée. Accès temporairement bloqué.",
          state := st3,
          audits := [.securityEvent "security.brute_force" ip
            [("type", .strVal "distributed_attack"),
             ("targeted_accounts", .listVal (li.2.take 10)),
             ("account_count", .natVal li.2.length)]] }
      else { allowed := true, message := none, state := st2, audits := [] }
  else { allowed := true, message := none, state := st2, audits := [] }

/-- Step 3 of record_attempt: the IP lockout gate (reject while locked,
drop an expired lock and continue). -/
def recordAttemptIpGate (cfg : BFConfig) (st : BFState) (email ip : String)
    (success : Bool) (userAgent : Option String) (now : Int) : RecordResult :=
  match lookupA st.lockedIps ip with
  | some lk =>
    if now < lk.unlockAt then
      { allowed := false,
        message := some ("Trop de tentatives depuis cette adresse. Réessayez dans "
          ++ toString ((lk.unlockAt - now) / 60) ++ " minutes."),
        state := st, audits := [] }
    else
      recordAttemptCore cfg { st with lockedIps := eraseA st.lockedIps ip }
        email ip success userAgent now
  | none => recordAttemptCore cfg st email ip success userAgent now

/-- BruteForceProtection.record_attempt: account lockout gate, IP lockout
gate, then the recording and locking logic. -/
def recordAttempt (cfg : BFConfig) (st : BFState) (email ip : String)
    (success : Bool) (userAgent : Option String) (now : Int) : RecordResult :=
  match lookupA st.lockedAccounts email with
  | some lk =>
    if now < lk.unlockAt then
      { allowed := false,
        message := some ("Compte verrouillé. Réessayez dans "
          ++ toString ((lk.unlockAt - now) / 60) ++ " minutes."),
        state := st, audits := [] }
    else
      recordAttemptIpGate cfg { st with lockedAccounts := eraseA st.lockedAccounts email }
        email ip success userAgent now
  | none => recordAttemptIpGate cfg st email ip success userAgent now

/-- BruteForceProtection.unlock_account (admin): drop the lockout if
present, reset the consecutive-lockout history, and log a user-management
audit action when a truthy admin user id is supplied. -/
def unlockAccount (st : BFState) (email : String) (adminUserId : Option String) :
    Bool × BFState × List AuditCall :=
  match lookupA st.lockedAccounts email with
  | some _ =>
    let st1 := { st with
      lockedAccounts := eraseA st.lockedAccounts email,
      lockoutHistory := insertA st.lockoutHistory email 0 }
    let audits :=
      match adminUserId with
      | some adminId =>
        if adminId = "" then []
        else [AuditCall.userAction "user.unlock" adminId email "manual_unlock"
          [("unlocked_by", .strVal "admin")]]
      | none => []
    (true, st1, audits)
  | none => (false, st, [])

/-- BruteForceProtection.unlock_ip (admin): drop the lockout if present.
The source logs no audit action here, whatever admin_user_id is. -/
def unlockIp (st : BFState) (ip : String) (_adminUserId : Option String) :
    Bool × BFState × List AuditCall :=
  match lookupA st.lockedIps ip with
  | some _ => (true, { st with lockedIps := eraseA st.lockedIps ip }, [])
  | none => (false, st, [])

/-- BruteForceProtection.reset_attempts: clear the email's attempt list (if
the key exists) and zero its consecutive-lockout history. -/
def resetAttempts (st : BFState) (email : String) : BFState :=
  let st1 :=
    if (lookupA st.attemptsByEmail email).isSome then
      { st with attemptsByEmail := insertA st.attemptsByEmail email [] }
    else st
  { st1 with lockoutHistory := insertA st1.lockoutHistory email 0 }

/-! ### Lemmas about the guard's pruning and gating -/

theorem getRecent_cleanup (cfg : BFConfig) (st : BFState) (email ip : String)
    (now : Int) :
    getRecentAttempts cfg (cleanupOldAttempts cfg st email ip now) email now =
      getRecentAttempts cfg st email now := by
  unfold getRecentAttempts cleanupOldAttempts
  simp only [lookupA_insertA_self, Option.getD_some]
  rw [List.filter_filter]
  apply List.filter_congr
  intro a _
  cases h : decide (now - cfg.attemptWindow < a.timestamp) <;> simp [h]

theorem shouldLockIp_cleanup (cfg : BFConfig) (st : BFState) (email ip : String)
    (now : Int) :
    shouldLockIp cfg (cleanupOldAttempts cfg st email ip now) ip now =
      shouldLockIp cfg st ip now := by
  unfold shouldLockIp cleanupOldAttempts
  simp only [lookupA_insertA_self, Option.getD_some]
  rw [List.filter_filter]
  have hfil : ∀ l : List LoginAttempt,
      l.filter (fun a => (decide (now - cfg.attemptWindow < a.timestamp) && !a.success)
          && decide (now - cfg.attemptWindow < a.timestamp)) =
        l.filter (fun a => decide (now - cfg.attemptWindow < a.timestamp) && !a.success) := by
    intro l
    apply List.filter_congr
    intro a _
    cases h : decide (now - cfg.attemptWindow < a.timestamp) <;> simp [h]
  rw [hfil]

theorem cleanup_append_lockedAccounts (cfg : BFConfig) (st : BFState)
    (a : LoginAttempt) (email ip : String) (now : Int) :
    (cleanupOldAttempts cfg (appendAttempt st a) email ip now).lockedAccounts =
      st.lockedAccounts := rfl

theorem cleanup_append_lockedIps (cfg : BFConfig) (st : BFState)
    (a : LoginAttempt) (email ip : String) (now : Int) :
    (cleanupOldAttempts cfg (appendAttempt st a) email ip now).lockedIps =
      st.lockedIps := rfl

theorem cleanup_append_lockoutHistory (cfg : BFConfig) (st : BFState)
    (a : LoginAttempt) (email ip : String) (now : Int) :
    (cleanupOldAttempts cfg (appendAttempt st a) email ip now).lockoutHistory =
      st.lockoutHistory := rfl

/-- When neither the account nor the IP holds a lockout entry, record_attempt
falls straight through both gates. -/
theorem recordAttempt_no_locks (cfg : BFConfig) (st : BFState) (email ip : String)
    (success : Bool) (ua : Option String) (now : Int)
    (hacc : lookupA st.lockedAccounts email = none)
    (hip : lookupA st.lockedIps ip = none) :
    recordAttempt cfg st email ip success ua now =
      recordAttemptCore cfg st email ip success ua now := by
  unfold recordAttempt recordAttemptIpGate
  rw [hacc, hip]

theorem resetAttempts_self (st : BFState) (email : String) :
    (lookupA (resetAttempts st email).attemptsByEmail email).getD [] = []
  ∧ lookupA (resetAttempts st email).lockoutHistory email = some 0 := by
  unfold resetAttempts
  by_cases h : (lookupA st.attemptsByEmail email).isSome
  · simp only [h, if_pos]
    exact ⟨by rw [lookupA_insertA_self]; rfl, by rw [lookupA_insertA_self]⟩
  · constructor
    · rw [if_neg (by simp [h])]
      rcases ho : lookupA st.attemptsByEmail email with _ | v
      · rfl
      · exact absurd (by simp [ho]) h
    · rw [if_neg (by simp [h])]
      rw [lookupA_insertA_self]

theorem lockAccount_lookup (cfg : BFConfig) (st : BFState) (email : String)
    (reason : LockoutReason) (now : Int) :
    lookupA (lockAccount cfg st email reason now).lockedAccounts email =
      some { email := email, lockedAt := now,
             unlockAt := now +
               (if cfg.progressiveLockout then
                 min (cfg.lockoutDuration *
                   2 ^ ((lookupA st.lockoutHistory email).getD 0 + 1 - 1)) 86400
               else cfg.lockoutDuration),
             reason := reason,
             attemptCount := (getRecentAttempts cfg st email now).length,
             lockoutCount := (lookupA st.lockoutHistory email).getD 0 + 1 } :=
  lookupA_insertA_self _ _ _

/-- C3: with no active lockout on the identity or IP, a failed
record_attempt whose in-window failure count (after recording) reaches the
threshold rejects the call and creates a lockout entry with
unlock_at = now + duration; and reset_attempts empties the identity's
failure history and zeroes the consecutive-lockout counter. -/
theorem c3_lockout_at_threshold
    (cfg : BFConfig) (st : BFState) (email ip : String) (ua : Option String) (now : Int)
    (hacc : lookupA st.lockedAccounts email = none)
    (hip : lookupA st.lockedIps ip = none)
    (hcount : cfg.maxLoginAttempts ≤
      (getRecentAttempts cfg (appendAttempt st ⟨now, email, ip, false, ua⟩)
        email now).length) :
    ((recordAttempt cfg st email ip false ua now).allowed = false)
  ∧ ((recordAttempt cfg st email ip false ua now).message =
      some "Compte verrouillé suite à trop de tentatives échouées.")
  ∧ (∃ lk, lookupA (recordAttempt cfg st email ip false ua now).state.lockedAccounts
        email = some lk
      ∧ lk.lockedAt = now
      ∧ lk.unlockAt = now +
          (if cfg.progressiveLockout then
            min (cfg.lockoutDuration *
              2 ^ ((lookupA st.lockoutHistory email).getD 0 + 1 - 1)) 86400
          else cfg.lockoutDuration))
  ∧ (∀ (st2 : BFState) (e2 : String) (now2 : Int),
      getRecentAttempts cfg (resetAttempts st2 e2) e2 now2 = []
      ∧ lookupA (resetAttempts st2 e2).lockoutHistory e2 = some 0) := by
  rw [recordAttempt_no_locks cfg st email ip false ua now hacc hip]
  have hla : shouldLockAccount cfg
      (cleanupOldAttempts cfg (appendAttempt st ⟨now, email, ip, false, ua⟩) email ip now)
      email now = (true, some .tooManyAttempts) := by
    unfold shouldLockAccount
    rw [getRecent_cleanup]
    rw [if_pos hcount]
  have hcore : recordAttemptCore cfg st email ip false ua now =
      { allowed := false,
        message := some "Compte verrouillé suite à trop de tentatives échouées.",
        state := lockAccount cfg
          (cleanupOldAttempts cfg (appendAttempt st ⟨now, email, ip, false, ua⟩)
            email ip now) email .tooManyAttempts now,
        audits := [.securityEvent "security.brute_force" ip
          [("email", .strVal email),
           ("attempt_count", .natVal (getRecentAttempts cfg
              (lockAccount cfg
                (cleanupOldAttempts cfg (appendAttempt st ⟨now, email, ip, false, ua⟩)
                  email ip now) email .tooManyAttempts now) email now).length),
           ("reason", .strVal (LockoutReason.tooManyAttempts).value)]] } := by
    unfold recordAttemptCore
    simp only [hla, Option.getD_some, if_true]
  rw [hcore]
  refine ⟨rfl, rfl, ?_, fun st2 e2 now2 => ?_⟩
  · refine ⟨_, lockAccount_lookup cfg _ email .tooManyAttempts now, rfl, ?_⟩
    rw [cleanup_append_lockoutHistory]
  · refine ⟨?_, (resetAttempts_self st2 e2).2⟩
    unfold getRecentAttempts
    rw [(resetAttempts_self st2 e2).1]
    simp

/-- Sequence runner: record the listed (email, ip, success, time) attempts. -/
def bfRun (cfg : BFConfig) : List (String × String × Bool × Int) → BFState → BFState
  | [], st => st
  | (em, ipa, suc, t) :: rest, st =>
    bfRun cfg rest (recordAttempt cfg st em ipa suc none t).state

/-- Four failed attempts for one identity (one below the default threshold). -/
def c3Pre : BFState :=
  bfRun defaultBFConfig
    [("a@b.com", "1.1.1.1", false, 0), ("a@b.com", "1.1.1.1", false, 1),
     ("a@b.com", "1.1.1.1", false, 2), ("a@b.com", "1.1.1.1", false, 3)]
    BFState.init

theorem c3_lockout_at_threshold_witness :
    (recordAttempt defaultBFConfig c3Pre "a@b.com" "1.1.1.1" false none 4).allowed = false :=
  (c3_lockout_at_threshold defaultBFConfig c3Pre "a@b.com" "1.1.1.1" none 4
    (by decide) (by decide) (by decide)).1

theorem lockIp_lookup (cfg : BFConfig) (st : BFState) (ip : String)
    (targeted : List String) (now : Int) :
    lookupA (lockIp cfg st ip targeted now).lockedIps ip =
      some { ipAddress := ip, lockedAt := now, unlockAt := now + cfg.lockoutDuration,
             reason := .distributedAttack, targetedAccounts := targeted } :=
  lookupA_insertA_self _ _ _

/-- C5: a failed attempt that makes the IP's distinct-identity failure count
reach the distributed-attack threshold — while the identity itself is below
its own threshold and nothing is already locked — rejects, locks the IP
until now + LOCKOUT_DURATION, emits exactly the distributed-attack audit
event, and does not lock the identity. -/
theorem c5_distributed_attack_detection
    (cfg : BFConfig) (st : BFState) (email ip : String) (ua : Option String) (now : Int)
    (hacc : lookupA st.lockedAccounts email = none)
    (hip : lookupA st.lockedIps ip = none)
    (hbelow : (getRecentAttempts cfg (appendAttempt st ⟨now, email, ip, false, ua⟩)
        email now).length < cfg.maxLoginAttempts)
    (hdist : (shouldLockIp cfg (appendAttempt st ⟨now, email, ip, false, ua⟩) ip now).1
        = true) :
    ((recordAttempt cfg st email ip false ua now).allowed = false)
  ∧ ((recordAttempt cfg st email ip false ua now).message =
      some "Activité suspecte détectée. Accès temporairement bloqué.")
  ∧ (∃ lk, lookupA (recordAttempt cfg st email ip false ua now).state.lockedIps ip =
        some lk
      ∧ lk.lockedAt = now ∧ lk.unlockAt = now + cfg.lockoutDuration)
  ∧ ((recordAttempt cfg st email ip false ua now).audits =
      [.securityEvent "security.brute_force" ip
        [("type", .strVal "distributed_attack"),
         ("targeted_accounts", .listVal
           ((shouldLockIp cfg (appendAttempt st ⟨now, email, ip, false, ua⟩) ip now).2.take 10)),
         ("account_count", .natVal
           (shouldLockIp cfg (appendAttempt st ⟨now, email, ip, false, ua⟩) ip now).2.length)]])
  ∧ (lookupA (recordAttempt cfg st email ip false ua now).state.lockedAccounts email
      = none) := by
  rw [recordAttempt_no_locks cfg st email ip false ua now hacc hip]
  have hla : shouldLockAccount cfg
      (cleanupOldAttempts cfg (appendAttempt st ⟨now, email, ip, false, ua⟩) email ip now)
      email now = (false, none) := by
    unfold shouldLockAccount
    rw [getRecent_cleanup, if_neg (Nat.not_le.mpr hbelow)]
  have hli := shouldLockIp_cleanup cfg
    (appendAttempt st ⟨now, email, ip, false, ua⟩) email ip now
  have hcore : recordAttemptCore cfg st email ip false ua now =
      { allowed := false,
        message := some "Activité suspecte détectée. Accès temporairement bloqué.",
        state := lockIp cfg
          (cleanupOldAttempts cfg (appendAttempt st ⟨now, email, ip, false, ua⟩)
            email ip now) ip
          (shouldLockIp cfg (appendAttempt st ⟨now, email, ip, false, ua⟩) ip now).2 now,
        audits := [.securityEvent "security.brute_force" ip
          [("type", .strVal "distributed_attack"),
           ("targeted_accounts", .listVal
             ((shouldLockIp cfg (appendAttempt st ⟨now, email, ip, false, ua⟩) ip now).2.take 10)),
           ("account_count", .natVal
             (shouldLockIp cfg (appendAttempt st ⟨now, email, ip, false, ua⟩) ip now).2.length)]] } := by
    unfold recordAttemptCore
    simp only [hla, hli, hdist, Bool.false_eq_true, if_true, if_false]
  rw [hcore]
  refine ⟨rfl, rfl, ⟨_, lockIp_lookup cfg _ ip _ now, rfl, rfl⟩, rfl, ?_⟩
  have hframe : (lockIp cfg
      (cleanupOldAttempts cfg (appendAttempt st ⟨now, email, ip, false, ua⟩) email ip now)
      ip (shouldLockIp cfg (appendAttempt st ⟨now, email, ip, false, ua⟩) ip now).2
      now).lockedAccounts = st.lockedAccounts := rfl
  rw [hframe]
  exact hacc

/-- Nine distinct identities failing once each from one IP (one below the
default distributed threshold of 10). -/
def c5Pre : BFState :=
  bfRun defaultBFConfig
    [("e1", "9.9.9.9", false, 0), ("e2", "9.9.9.9", false, 1),
     ("e3", "9.9.9.9", false, 2), ("e4", "9.9.9.9", false, 3),
     ("e5", "9.9.9.9", false, 4), ("e6", "9.9.9.9", false, 5),
     ("e7", "9.9.9.9", false, 6), ("e8", "9.9.9.9", false, 7),
     ("e9", "9.9.9.9", false, 8)]
    BFState.init

theorem c5_distributed_attack_detection_witness :
    (recordAttempt defaultBFConfig c5Pre "e10" "9.9.9.9" false none 9).allowed = false :=
  (c5_distributed_attack_detection defaultBFConfig c5Pre "e10" "9.9.9.9" none 9
    (by decide) (by decide) (by decide) (by decide)).1

/-- Concrete state with a locked IP, used against C6: the source's unlock_ip
logs no audit action even when an admin user id is supplied. -/
def c6LockedIpState : BFState :=
  { BFState.init with
    lockedIps := [("9.9.9.9",
      { ipAddress := "9.9.9.9", lockedAt := 0, unlockAt := 1800,
        reason := .distributedAttack, targetedAccounts := ["e1"] })] }

theorem c6_unlock_ip_no_audit_counterexample :
    ((unlockIp c6LockedIpState "9.9.9.9" (some "admin7")).1 = true)
  ∧ ((unlockIp c6LockedIpState "9.9.9.9" (some "admin7")).2.2 = []) := by
  decide

/-- C6 (amended): unlock_account and unlock_ip remove the corresponding
lockout unconditionally and report whether one existed; unlock_account
additionally zeroes the consecutive-lockout counter and, when a truthy
admin user id is supplied, logs a user-management audit action — while
unlock_ip never logs any audit action. -/
theorem c6_admin_unlock_amended (st : BFState) (email ip adminId : String) :
    ((unlockAccount st email (some adminId)).1 =
      (lookupA st.lockedAccounts email).isSome)
  ∧ (lookupA (unlockAccount st email (some adminId)).2.1.lockedAccounts email = none)
  ∧ ((lookupA st.lockedAccounts email).isSome = true → adminId ≠ "" →
      ((unlockAccount st email (some adminId)).2.2 =
        [.userAction "user.unlock" adminId email "manual_unlock"
          [("unlocked_by", .strVal "admin")]])
      ∧ lookupA (unlockAccount st email (some adminId)).2.1.lockoutHistory email
          = some 0)
  ∧ ((unlockIp st ip (some adminId)).1 = (lookupA st.lockedIps ip).isSome)
  ∧ (lookupA (unlockIp st ip (some adminId)).2.1.lockedIps ip = none)
  ∧ ((unlockIp st ip (some adminId)).2.2 = []) := by
  constructor
  · unfold unlockAccount
    rcases lookupA st.lockedAccounts email with _ | lk <;> rfl
  constructor
  · unfold unlockAccount
    rcases h : lookupA st.lockedAccounts email with _ | lk
    · exact h
    · exact lookupA_eraseA_self _ _
  constructor
  · intro hsome hadmin
    unfold unlockAccount
    rcases h : lookupA st.lockedAccounts email with _ | lk
    · rw [h] at hsome
      exact absurd hsome (by simp)
    · refine ⟨?_, ?_⟩
      · simp [hadmin]
      · exact lookupA_insertA_self _ _ _
  constructor
  · unfold unlockIp
    rcases lookupA st.lockedIps ip with _ | lk <;> rfl
  constructor
  · unfold unlockIp
    rcases h : lookupA st.lockedIps ip with _ | lk
    · exact h
    · exact lookupA_eraseA_self _ _
  · unfold unlockIp
    rcases lookupA st.lockedIps ip with _ | lk <;> rfl

/-- Concrete state with a locked account, used to witness the amended C6. -/
def c6LockedAccState : BFState :=
  { c6LockedIpState with
    lockedAccounts := [("a@b.com",
      { email := "a@b.com", lockedAt := 0, unlockAt := 1800,
        reason := .tooManyAttempts, attemptCount := 5, lockoutCount := 1 })],
    lockoutHistory := [("a@b.com", 1)] }

theorem c6_admin_unlock_amended_witness :
    ((unlockAccount c6LockedAccState "a@b.com" (some "admin7")).2.2 =
      [.userAction "user.unlock" "admin7" "a@b.com" "manual_unlock"
        [("unlocked_by", .strVal "admin")]])
  ∧ lookupA (unlockAccount c6LockedAccState "a@b.com" (some "admin7")).2.1.lockoutHistory
      "a@b.com" = some 0 :=
  (c6_admin_unlock_amended c6LockedAccState "a@b.com" "9.9.9.9" "admin7").2.2.1
    (by decide) (by decide)

/-- C8: the k-th consecutive lockout of an identity (the lockout-history
counter being k−1 before the lock) gets duration exactly
min(LOCKOUT_DURATION · 2^(k−1), 86400) when progressive lockout is enabled,
and exactly LOCKOUT_DURATION when disabled. -/
theorem c8_progressive_lockout_duration
    (cfg : BFConfig) (st : BFState) (email : String) (reason : LockoutReason)
    (now : Int) (k : Nat) (hk : 1 ≤ k)
    (hhist : (lookupA st.lockoutHistory email).getD 0 = k - 1) :
    ∃ lk, lookupA (lockAccount cfg st email reason now).lockedAccounts email = some lk
      ∧ lk.lockoutCount = k
      ∧ lk.unlockAt - lk.lockedAt =
          (if cfg.progressiveLockout then
            min (cfg.lockoutDuration * 2 ^ (k - 1)) 86400
          else cfg.lockoutDuration) := by
  refine ⟨_, lockAccount_lookup cfg st email reason now, ?_, ?_⟩
  · simp only
    omega
  · simp only
    rw [hhist]
    have harith : k - 1 + 1 - 1 = k - 1 := by omega
    rw [harith, add_sub_cancel_left]

/-- Concrete third-consecutive-lockout instance witnessing C8:
min(1800 · 2², 86400) = 7200 seconds. -/
theorem c8_progressive_lockout_duration_witness :
    ∃ lk, lookupA (lockAccount defaultBFConfig
        { BFState.init with lockoutHistory := [("a@b.com", 2)] }
        "a@b.com" .tooManyAttempts 100).lockedAccounts "a@b.com" = some lk
      ∧ lk.lockoutCount = 3
      ∧ lk.unlockAt - lk.lockedAt =
          (if defaultBFConfig.progressiveLockout then
            min (defaultBFConfig.lockoutDuration * 2 ^ (3 - 1)) 86400
          else defaultBFConfig.lockoutDuration) :=
  c8_progressive_lockout_duration defaultBFConfig
    { BFState.init with lockoutHistory := [("a@b.com", 2)] }
    "a@b.com" .tooManyAttempts 100 3 (by decide) (by decide)

/-- C9: reset_attempts touches only the given email's attempt list and
lockout history; per-IP attempts, IP lockouts and account lockouts are
unchanged, other identities' entries are unchanged, and in particular the
distributed-attack computation for every IP is unaffected. -/
theorem c9_reset_attempts_frame (st : BFState) (email : String) :
    ((resetAttempts st email).attemptsByIp = st.attemptsByIp)
  ∧ ((resetAttempts st email).lockedIps = st.lockedIps)
  ∧ ((resetAttempts st email).lockedAccounts = st.lockedAccounts)
  ∧ (∀ e, e ≠ email →
      lookupA (resetAttempts st email).attemptsByEmail e =
        lookupA st.attemptsByEmail e)
  ∧ (∀ e, e ≠ email →
      lookupA (resetAttempts st email).lockoutHistory e =
        lookupA st.lockoutHistory e)
  ∧ ((lookupA (resetAttempts st email).attemptsByEmail email).getD [] = [])
  ∧ (lookupA (resetAttempts st email).lockoutHistory email = some 0)
  ∧ (∀ (cfg : BFConfig) (ip : String) (now : Int),
      shouldLockIp cfg (resetAttempts st email) ip now = shouldLockIp cfg st ip now) := by
  have hbyIp : (resetAttempts st email).attemptsByIp = st.attemptsByIp := by
    unfold resetAttempts
    by_cases h : (lookupA st.attemptsByEmail email).isSome <;> simp [h]
  refine ⟨hbyIp, ?_, ?_, ?_, ?_, (resetAttempts_self st email).1,
    (resetAttempts_self st email).2, ?_⟩
  · unfold resetAttempts
    by_cases h : (lookupA st.attemptsByEmail email).isSome <;> simp [h]
  · unfold resetAttempts
    by_cases h : (lookupA st.attemptsByEmail email).isSome <;> simp [h]
  · intro e he
    unfold resetAttempts
    by_cases h : (lookupA st.attemptsByEmail email).isSome
    · simp only [h, if_pos]
      exact lookupA_insertA_ne _ _ _ _ he
    · simp [h]
  · intro e he
    unfold resetAttempts
    by_cases h : (lookupA st.attemptsByEmail email).isSome
    · simp only [h, if_pos]
      exact lookupA_insertA_ne _ _ _ _ he
    · simp only [h]
      rw [if_neg (by simp [h])]
      exact lookupA_insertA_ne _ _ _ _ he
  · intro cfg ip now
    unfold shouldLockIp
    rw [hbyIp]

theorem c9_reset_attempts_frame_witness :
    lookupA (resetAttempts c3Pre "a@b.com").attemptsByEmail "x@y.com" =
      lookupA c3Pre.attemptsByEmail "x@y.com" :=
  (c9_reset_attempts_frame c3Pre "a@b.com").2.2.2.1 "x@y.com" (by decide)

/-! ## In-memory rate limiter (backend/common/security.py, InMemoryRateLimiter) -/

/-- State of an InMemoryRateLimiter instance: configuration, the per-key
timestamp lists, and the periodic-cleanup bookkeeping. -/
structure RLState where
  maxRequests : Nat
  windowSeconds : Int
  requests : List (String × List Int)
  lastCleanup : Int
  cleanupInterval : Int
deriving DecidableEq, Repr

/-- InMemoryRateLimiter.__init__ (created at the given wall-clock time). -/
def RLState.create (maxRequests : Nat) (windowSeconds : Int) (startTime : Int) : RLState :=
  { maxRequests := maxRequests, windowSeconds := windowSeconds, requests := [],
    lastCleanup := startTime, cleanupInterval := 300 }

/-- InMemoryRateLimiter._cleanup_old_entries: every cleanup-interval
seconds, prune all keys and drop those whose list became empty. -/
def cleanupOldEntries (st : RLState) (now : Int) : RLState :=
  if now - st.lastCleanup < st.cleanupInterval then st
  else
    let cutoff := now - st.windowSeconds
    let pruned := st.requests.map
      (fun p => (p.1, p.2.filter (fun ts => decide (cutoff < ts))))
    { st with
      requests := pruned.filter (fun p => !p.2.isEmpty),
      lastCleanup := now }

/-- Timestamps of the identifier that are still inside the window at the
moment of an is_rate_limited call (after the periodic sweep). -/
def rlValidRequests (st : RLState) (identifier : String) (now : Int) : List Int :=
  ((lookupA (cleanupOldEntries st now).requests identifier).getD []).filter
    (fun ts => decide (now - (cleanupOldEntries st now).windowSeconds < ts))

/-- InMemoryRateLimiter.is_rate_limited: prune the identifier's timestamps,
store the pruned list back, and either reject (≥ cap, call not recorded) or
append now and report the remaining budget. Returns
(is_limited, remaining_requests, new_state). -/
def isRateLimited (st : RLState) (identifier : String) (now : Int) :
    Bool × Int × RLState :=
  let st1 := cleanupOldEntries st now
  let validRequests := rlValidRequests st identifier now
  let st2 := { st1 with requests := insertA st1.requests identifier validRequests }
  let remaining : Int := max 0 ((st1.maxRequests : Int) - validRequests.length)
  if st1.maxRequests ≤ validRequests.length then (true, 0, st2)
  else
    (false, remaining - 1,
      { st2 with requests := insertA st2.requests identifier (validRequests ++ [now]) })

theorem cleanupOldEntries_maxRequests (st : RLState) (now : Int) :
    (cleanupOldEntries st now).maxRequests = st.maxRequests := by
  unfold cleanupOldEntries
  by_cases h : now - st.lastCleanup < st.cleanupInterval <;> simp [h]

/-- C4: each is_rate_limited call first prunes the identifier's timestamps;
if the pruned count has reached the cap it rejects with remaining = 0 and
does not record the call; otherwise it records now and returns
remaining = cap − count − 1. Concretely with cap 3: four calls inside one
window are answered (allowed, 2), (allowed, 1), (allowed, 0), (limited, 0). -/
theorem c4_rate_limiter_check_semantics :
    (∀ (st : RLState) (identifier : String) (now : Int),
      (st.maxRequests ≤ (rlValidRequests st identifier now).length →
        (isRateLimited st identifier now).1 = true
        ∧ (isRateLimited st identifier now).2.1 = 0
        ∧ lookupA (isRateLimited st identifier now).2.2.requests identifier =
            some (rlValidRequests st identifier now))
      ∧ ((rlValidRequests st identifier now).length < st.maxRequests →
        (isRateLimited st identifier now).1 = false
        ∧ (isRateLimited st identifier now).2.1 =
            (st.maxRequests : Int) - (rlValidRequests st identifier now).length - 1
        ∧ lookupA (isRateLimited st identifier now).2.2.requests identifier =
            some (rlValidRequests st identifier now ++ [now])))
  ∧ ((isRateLimited (RLState.create 3 10 0) "ip" 1).1 = false
      ∧ (isRateLimited (RLState.create 3 10 0) "ip" 1).2.1 = 2)
  ∧ ((isRateLimited (isRateLimited (RLState.create 3 10 0) "ip" 1).2.2 "ip" 2).1 = false
      ∧ (isRateLimited (isRateLimited (RLState.create 3 10 0) "ip" 1).2.2 "ip" 2).2.1 = 1)
  ∧ ((isRateLimited (isRateLimited (isRateLimited
        (RLState.create 3 10 0) "ip" 1).2.2 "ip" 2).2.2 "ip" 3).1 = false
      ∧ (isRateLimited (isRateLimited (isRateLimited
        (RLState.create 3 10 0) "ip" 1).2.2 "ip" 2).2.2 "ip" 3).2.1 = 0)
  ∧ ((isRateLimited (isRateLimited (isRateLimited (isRateLimited
        (RLState.create 3 10 0) "ip" 1).2.2 "ip" 2).2.2 "ip" 3).2.2 "ip" 4).1 = true
      ∧ (isRateLimited (isRateLimited (isRateLimited (isRateLimited
        (RLState.create 3 10 0) "ip" 1).2.2 "ip" 2).2.2 "ip" 3).2.2 "ip" 4).2.1 = 0) := by
  refine ⟨?_, by decide, by decide, by decide, by decide⟩
  intro st identifier now
  constructor
  · intro hge
    unfold isRateLimited
    simp only [cleanupOldEntries_maxRequests]
    rw [if_pos hge]
    exact ⟨rfl, rfl, lookupA_insertA_self _ _ _⟩
  · intro hlt
    unfold isRateLimited
    simp only [cleanupOldEntries_maxRequests]
    rw [if_neg (Nat.not_le.mpr hlt)]
    refine ⟨rfl, ?_, ?_⟩
    · have hmaxge : ((rlValidRequests st identifier now).length : Int) ≤
          (st.maxRequests : Int) := by exact_mod_cast Nat.le_of_lt hlt
      simp only
      rw [max_eq_right (by omega)]
    · simp only
      rw [lookupA_insertA_self]

theorem c4_rate_limiter_check_semantics_witness :
    (isRateLimited (RLState.create 3 10 0) "ip" 1).1 = false
  ∧ (isRateLimited (RLState.create 3 10 0) "ip" 1).2.1 =
      ((RLState.create 3 10 0).maxRequests : Int) -
        (rlValidRequests (RLState.create 3 10 0) "ip" 1).length - 1
  ∧ lookupA (isRateLimited (RLState.create 3 10 0) "ip" 1).2.2.requests "ip" =
      some (rlValidRequests (RLState.create 3 10 0) "ip" 1 ++ [1]) :=
  ((c4_rate_limiter_check_semantics.1 (RLState.create 3 10 0) "ip" 1).2 (by decide))

/-! ## Audit trail (backend/common/audit.py)

AuditService.log appends the event to the bounded in-memory deque and then
evaluates `event.to_json()` for the logger call. `json.dumps` raises
TypeError on a detail value that is not JSON-serializable, and `log` has no
try/except, so that error propagates to log's caller; the logging handler
itself swallows write failures (logging.Handler.handleError reports them to
stderr). Detail values are modelled by `PyVal`, with a constructor for an
arbitrary non-serializable Python object; serialization returns `none`
exactly when json.dumps would raise, and `LogResult.raised` records whether
the call raised. The concrete characters of the serialized line abstract
JSON punctuation. -/

/-- A Python value stored in an audit event's detail map. -/
inductive PyVal
  | pyStr (s : String)
  | pyInt (n : Int)
  | pyBool (b : Bool)
  | pyNonSerializable (tag : String)
deriving DecidableEq, Repr

/-- Serialization of one detail value; `none` models a json.dumps TypeError. -/
def PyVal.toJson : PyVal → Option String
  | .pyStr s => some s
  | .pyInt n => some (toString n)
  | .pyBool b => some (toString b)
  | .pyNonSerializable _ => none

/-- A detail value is JSON-serializable when its serialization succeeds. -/
def PyVal.serializable (v : PyVal) : Bool := (PyVal.toJson v).isSome

/-- Serialization of the detail map: succeeds iff every value serializes. -/
def detailsToJson : List (String × PyVal) → Option String
  | [] => some ""
  | (k, v) :: rest =>
    match PyVal.toJson v, detailsToJson rest with
    | some sv, some srest => some (k ++ "=" ++ sv ++ ";" ++ srest)
    | _, _ => none

/-- AuditEvent dataclass (field layout of audit.py). -/
structure AuditEvent where
  eventType : String
  timestamp : Int
  severity : String
  userId : Option String
  userEmail : Option String
  userRole : Option String
  requestId : Option String
  ipAddress : Option String
  userAgent : Option String
  endpoint : Option String
  method : Option String
  resourceType : Option String
  resourceId : Option String
  action : Option String
  details : List (String × PyVal)
  success : Bool
  errorMessage : Option String
deriving DecidableEq, Repr

/-- AuditEvent.to_json: every field except the detail map serializes by
construction (strings, numbers, booleans, isoformat timestamps), so the
call raises exactly when the detail map does. -/
def AuditEvent.toJson (e : AuditEvent) : Option String :=
  match detailsToJson e.details with
  | some d =>
    some (e.eventType ++ "|" ++ toString e.timestamp ++ "|" ++ e.severity ++ "|" ++ d)
  | none => none

/-- Mutable state of an AuditService instance. -/
structure AuditState where
  events : List AuditEvent
  maxMemoryEvents : Nat
  enabled : Bool
deriving DecidableEq, Repr

/-- AuditService.__init__ with the default ring size of 1000. -/
def AuditState.init : AuditState :=
  { events := [], maxMemoryEvents := 1000, enabled := true }

/-- deque(maxlen=m).append: drop from the front once the ring is full. -/
def ringAppend (maxLen : Nat) (xs : List AuditEvent) (x : AuditEvent) : List AuditEvent :=
  let ys := xs ++ [x]
  ys.drop (ys.length - maxLen)

/-- Outcome of one AuditService.log call: whether the call raised to its
caller, the post-call service state, and the line handed to the logger. -/
structure LogResult where
  raised : Bool
  state : AuditState
  sinkLine : Option String
deriving DecidableEq, Repr

/-- AuditService.log: return immediately when disabled; otherwise append to
the ring, then serialize for the logger — a serialization failure escapes
(there is no try/except in the source). -/
def AuditService.log (st : AuditState) (event : AuditEvent) : LogResult :=
  if st.enabled = false then { raised := false, state := st, sinkLine := none }
  else
    let st1 := { st with events := ringAppend st.maxMemoryEvents st.events event }
    match event.toJson with
    | some line => { raised := false, state := st1, sinkLine := some line }
    | none => { raised := true, state := st1, sinkLine := none }

theorem detailsToJson_isSome {l : List (String × PyVal)}
    (h : (l.all fun p => p.2.serializable) = true) :
    (detailsToJson l).isSome = true := by
  induction l with
  | nil => rfl
  | cons hd tl ih =>
    obtain ⟨k, v⟩ := hd
    simp only [List.all_cons, Bool.and_eq_true] at h
    obtain ⟨h1, h2⟩ := h
    rcases hv : PyVal.toJson v with _ | sv
    · rw [PyVal.serializable, hv] at h1
      simp at h1
    · have htl := ih h2
      rcases hr : detailsToJson tl with _ | srest
      · rw [hr] at htl
        simp at htl
      · simp [detailsToJson, hv, hr]

/-- An event whose detail map holds a non-serializable object (for example
a Python set), aimed at C7. -/
def c7BadEvent : AuditEvent :=
  { eventType := "security.brute_force", timestamp := 5, severity := "warning",
    userId := none, userEmail := none, userRole := none, requestId := none,
    ipAddress := some "9.9.9.9", userAgent := none, endpoint := none,
    method := none, resourceType := none, resourceId := none, action := none,
    details := [("targeted", .pyNonSerializable "set")], success := false,
    errorMessage := none }

theorem c7_log_raises_counterexample :
    (AuditService.log AuditState.init c7BadEvent).raised = true := by decide

/-- C7 (amended): AuditService.log returns without raising whenever auditing
is disabled or every value of the event's detail map is JSON-serializable;
an event whose detail map fails serialization propagates the serialization
error to log's caller. -/
theorem c7_log_no_raise_amended (st : AuditState) (ev : AuditEvent) :
    (st.enabled = false → (AuditService.log st ev).raised = false)
  ∧ ((ev.details.all fun p => p.2.serializable) = true →
      (AuditService.log st ev).raised = false) := by
  constructor
  · intro h
    simp [AuditService.log, h]
  · intro h
    by_cases he : st.enabled = false
    · simp [AuditService.log, he]
    · have hsome := detailsToJson_isSome h
      unfold AuditService.log
      rw [if_neg he]
      unfold AuditEvent.toJson
      rcases hd : detailsToJson ev.details with _ | s
      · rw [hd] at hsome
        simp at hsome
      · simp [hd]

/-- A fully serializable security event, mirroring what the brute-force
guard logs. -/
def c7GoodEvent : AuditEvent :=
  { c7BadEvent with
    details := [("email", .pyStr "a@b.com"), ("attempt_count", .pyInt 5),
                ("reason", .pyStr "too_many_login_attempts")] }

theorem c7_log_no_raise_amended_witness :
    (AuditService.log AuditState.init c7GoodEvent).raised = false :=
  (c7_log_no_raise_amended AuditState.init c7GoodEvent).2 (by decide)

end Alteris
